import Mathlib

/-!
Shallow embedding of the cart / order core of the FastAPI-Ecommerce-API
repository (the variant mounted by `app/api.py`, i.e. the services under
`app/modules/`), together with theorems checking the specification's claims
about it.

Conventions of the embedding:
* The relational store is a `DB` record of row lists; `select ... .first()`
  becomes `List.find?`, `db.get(Model, pk)` becomes a `find?` on the primary
  key, `db.delete(row)` removes the row by primary key.
* Each service call is a pure function `DB → ... → DB × Except ApiError α`.
  The returned `DB` is the durable (committed) state: SQLModel session
  mutations become visible only at `db.commit()`, and a raised exception
  propagates out of the service before any later commit, so error paths
  return the last committed state.
* Python `float` prices are modelled as `Rat`, `int` quantities/stock as
  `Int`, UUID identities as `Nat` (fresh ids drawn from a `next_id` counter).
-/

namespace Ecom

/-- Kinds of exceptions raised by the services: `NotFoundError` and
`ConflictError` from `app/exceptions.py` (each carrying its message), plus
the Python `AttributeError` that would occur if an ORM relationship is
unexpectedly absent. -/
inductive ApiError where
  | notFound (detail : String)
  | conflict (detail : String)
  | attributeError
deriving DecidableEq

/-- Row of the `users` table (only the identity is relevant here). -/
structure User where
  id : Nat
deriving DecidableEq

/-- Modelled from the spec: `app/models/product.py` is not present in the
source tree (only its importers are), so the Product row follows spec §3 and
the sibling model `src/models/product.py`: identity `id`, `price`
(non-negative decimal) and `stock` (integer). -/
structure Product where
  id : Nat
  price : Rat
  stock : Int
deriving DecidableEq

/-- Row of the `carts` table (`app/models/cart.py`): its own primary key,
the owning user, and the stored `total_amount` column whose model default
is `0.0`. -/
structure Cart where
  id : Nat
  user_id : Nat
  total_amount : Rat
deriving DecidableEq

/-- Row of the `cart_items` table (`app/models/cart.py`). -/
structure CartItem where
  id : Nat
  cart_id : Nat
  product_id : Nat
  quantity : Int
  unit_price : Rat
  subtotal : Rat
deriving DecidableEq

/-- Row of the `addresses` table (`app/models/address.py`): identity and
owning user are all the order flow consults. -/
structure Address where
  id : Nat
  user_id : Nat
deriving DecidableEq

/-- Order status enum (`app/models/order.py`), default `pending`. -/
inductive OrderStatus where
  | pending
  | paid
  | shipped
  | delivered
  | cancelled
deriving DecidableEq

/-- Row of the `order_items` table (`app/models/order.py`, `OrderItem`). -/
structure OrderItem where
  product_id : Nat
  quantity : Int
  unit_price : Rat
  subtotal : Rat
deriving DecidableEq

/-- Row of the `orders` table (`app/models/order.py`), with its one-to-many
`items` relationship inlined. -/
structure Order where
  id : Nat
  user_id : Nat
  status : OrderStatus
  total_amount : Rat
  shipping_address_id : Nat
  billing_address_id : Option Nat
  items : List OrderItem
deriving DecidableEq

/-- The durable relational state, plus a counter supplying fresh primary
keys (`uuid4` defaults in the models). -/
structure DB where
  users : List User
  products : List Product
  carts : List Cart
  cart_items : List CartItem
  addresses : List Address
  orders : List Order
  next_id : Nat
deriving DecidableEq

/-- The `cart.items` ORM relationship: all cart-item rows belonging to the
cart. -/
def cartItemsOf (db : DB) (cart_id : Nat) : List CartItem :=
  db.cart_items.filter (fun i => i.cart_id == cart_id)

/-- Checks whether a service call succeeded. -/
def isOk {α : Type} : Except ApiError α → Bool
  | .ok _ => true
  | .error _ => false

/-- The `CartRead` schema assembled by `CartService.get_cart`
(`app/modules/carts/schemas.py`); item rows are carried whole, which only
adds the `cart_id` field over `CartItemRead`. -/
structure CartRead where
  id : Nat
  user_id : Nat
  items : List CartItem
  total_amount : Rat
deriving DecidableEq

/-- The `OrderCreate` request schema (`app/modules/orders/schemas.py`):
mandatory shipping address, optional billing address. -/
structure OrderCreate where
  shipping_address_id : Nat
  billing_address_id : Option Nat
deriving DecidableEq

/-- The `CartItemCreate` request schema. -/
structure CartItemCreate where
  product_id : Nat
  quantity : Int
deriving DecidableEq

/-- The `CartItemUpdate` request schema (its `quantity` field). -/
structure CartItemUpdate where
  quantity : Int
deriving DecidableEq

/-- `CartService._get_or_create_cart` (`app/modules/carts/service.py`
lines 173-198). Faithful to the source, including its opening lookup
`user = await db.get(Cart, user_id)` — a primary-key fetch on the CARTS
table with the user's id — whose `None` result raises
`NotFoundError("User with ID {user_id} not found")`. Creating a cart
commits, so that state change survives later exceptions in callers. -/
def get_or_create_cart (db : DB) (user_id : Nat) : DB × Except ApiError Cart :=
  match db.carts.find? (fun c => c.id == user_id) with
  | none => (db, .error (.notFound ("User with ID " ++ toString user_id ++ " not found")))
  | some _ =>
    match db.carts.find? (fun c => c.user_id == user_id) with
    | some cart => (db, .ok cart)
    | none =>
      let cart : Cart := { id := db.next_id, user_id := user_id, total_amount := 0 }
      ({ db with carts := db.carts ++ [cart], next_id := db.next_id + 1 }, .ok cart)

/-- `CartService.get_cart` (`app/modules/carts/service.py` lines 12-30):
builds a `CartRead` whose `total_amount` is recomputed as the sum of the
current line subtotals. -/
def get_cart (db : DB) (user_id : Nat) : DB × Except ApiError CartRead :=
  match get_or_create_cart db user_id with
  | (db1, .error e) => (db1, .error e)
  | (db1, .ok cart) =>
    let items := cartItemsOf db1 cart.id
    (db1, .ok { id := cart.id, user_id := cart.user_id, items := items,
                total_amount := (items.map (fun i => i.subtotal)).sum })

/-- `CartService.add_item` (`app/modules/carts/service.py` lines 32-78).
The stock check compares only the REQUESTED quantity against stock; an
existing line for the product is then incremented (keeping its snapshotted
`unit_price`), otherwise a new line snapshots the product's current price. -/
def add_item (db : DB) (user_id : Nat) (data : CartItemCreate) :
    DB × Except ApiError CartItem :=
  match get_or_create_cart db user_id with
  | (db1, .error e) => (db1, .error e)
  | (db1, .ok cart) =>
    match db1.products.find? (fun p => p.id == data.product_id) with
    | none =>
        (db1, .error (.notFound
          ("Product with ID " ++ toString data.product_id ++ " not found")))
    | some product =>
      if data.quantity > product.stock then
        (db1, .error (.conflict "Requested quantity exceeds available stock"))
      else
        match db1.cart_items.find?
            (fun i => i.cart_id == cart.id && i.product_id == data.product_id) with
        | some item =>
          let item' : CartItem :=
            { item with quantity := item.quantity + data.quantity,
                        subtotal := item.unit_price * ((item.quantity + data.quantity : Int) : Rat) }
          ({ db1 with cart_items :=
              db1.cart_items.map (fun i => if i.id == item.id then item' else i) },
           .ok item')
        | none =>
          let item' : CartItem :=
            { id := db1.next_id, cart_id := cart.id, product_id := data.product_id,
              quantity := data.quantity, unit_price := product.price,
              subtotal := product.price * ((data.quantity : Int) : Rat) }
          ({ db1 with cart_items := db1.cart_items ++ [item'],
                      next_id := db1.next_id + 1 },
           .ok item')

/-- `CartService.update_item` (`app/modules/carts/service.py` lines 80-120).
`item.product` is the ORM relationship; were the product row absent the
Python attribute access would fail, modelled by `ApiError.attributeError`
(unreachable under foreign-key integrity). -/
def update_item (db : DB) (user_id item_id : Nat) (data : CartItemUpdate) :
    DB × Except ApiError CartItem :=
  match get_or_create_cart db user_id with
  | (db1, .error e) => (db1, .error e)
  | (db1, .ok cart) =>
    match db1.cart_items.find? (fun i => i.id == item_id && i.cart_id == cart.id) with
    | none =>
        (db1, .error (.notFound
          ("Cart item with ID " ++ toString item_id ++ " not found")))
    | some item =>
      match db1.products.find? (fun p => p.id == item.product_id) with
      | none => (db1, .error .attributeError)
      | some product =>
        if data.quantity > product.stock then
          (db1, .error (.conflict "Requested quantity exceeds available stock"))
        else
          let item' : CartItem :=
            { item with quantity := data.quantity,
                        subtotal := item.unit_price * ((data.quantity : Int) : Rat) }
          ({ db1 with cart_items :=
              db1.cart_items.map (fun i => if i.id == item.id then item' else i) },
           .ok item')

/-- `CartService.remove_item` (`app/modules/carts/service.py` lines 122-151).
Note the early `if not cart.items: return` — an empty cart makes the call
return successfully without touching anything. -/
def remove_item (db : DB) (user_id item_id : Nat) : DB × Except ApiError Unit :=
  match get_or_create_cart db user_id with
  | (db1, .error e) => (db1, .error e)
  | (db1, .ok cart) =>
    if cartItemsOf db1 cart.id = [] then
      (db1, .ok ())
    else
      match db1.cart_items.find? (fun i => i.id == item_id && i.cart_id == cart.id) with
      | none =>
          (db1, .error (.notFound
            ("Item with ID " ++ toString item_id ++ " not found")))
      | some item =>
        ({ db1 with cart_items := db1.cart_items.filter (fun i => !(i.id == item.id)) },
         .ok ())

/-- `CartService.clear_cart` (`app/modules/carts/service.py` lines 153-171):
deletes every item of the user's cart, keeping the cart row. -/
def clear_cart (db : DB) (user_id : Nat) : DB × Except ApiError Unit :=
  match get_or_create_cart db user_id with
  | (db1, .error e) => (db1, .error e)
  | (db1, .ok cart) =>
    ({ db1 with cart_items := db1.cart_items.filter (fun i => !(i.cart_id == cart.id)) },
     .ok ())

/-- `CartService.get_or_create_cart` of the older `src/carts/service.py`
variant (lines 14-35): no user lookup at all — it returns the existing cart
or creates an empty one, never failing. Kept for comparison with the
`app/modules` variant above. -/
def get_or_create_cart_src (db : DB) (user_id : Nat) : DB × Except ApiError Cart :=
  match db.carts.find? (fun c => c.user_id == user_id) with
  | some cart => (db, .ok cart)
  | none =>
    let cart : Cart := { id := db.next_id, user_id := user_id, total_amount := 0 }
    ({ db with carts := db.carts ++ [cart], next_id := db.next_id + 1 }, .ok cart)

/-- `UserService.get_user` (`app/modules/users/service.py` lines 64-78):
primary-key lookup on the users table, `NotFoundError` if absent. Pure
read, no commit. -/
def get_user (db : DB) (user_id : Nat) : Except ApiError User :=
  match db.users.find? (fun u => u.id == user_id) with
  | none => .error (.notFound ("User with ID " ++ toString user_id ++ " not found"))
  | some u => .ok u

/-- `AddressService.get_user_address` (`app/modules/addresses/service.py`
lines 43-70): checks the user exists, then selects the address owned by
that user; `NotFoundError` otherwise. Pure read, no commit. -/
def get_user_address (db : DB) (user_id address_id : Nat) : Except ApiError Address :=
  match get_user db user_id with
  | .error e => .error e
  | .ok user =>
    match db.addresses.find? (fun a => a.id == address_id && a.user_id == user.id) with
    | none =>
        .error (.notFound
          ("Address with ID " ++ toString address_id ++ " not found for user "
            ++ toString user_id))
    | some a => .ok a

/-- The billing-address block of `OrderService.create_order` (lines 39-44):
`if data.billing_address_id:` resolve it for the user, `else` reuse the
shipping address. -/
def resolve_billing (db : DB) (user_id : Nat) (shipping_address : Address) :
    Option Nat → Except ApiError Address
  | some b => get_user_address db user_id b
  | none => .ok shipping_address

/-- The checkout `ConflictError` message,
`f"Product {item.product_id} is out of stock or insufficient quantity."`. -/
def insufficientStockMsg (pid : Nat) : String :=
  "Product " ++ toString pid ++ " is out of stock or insufficient quantity."

/-- One product's in-session stock decrement, `product.stock -= quantity`. -/
def decStock (products : List Product) (pid : Nat) (qty : Int) : List Product :=
  products.map (fun p => if p.id == pid then { p with stock := p.stock - qty } else p)

/-- The validation loop of `OrderService.create_order`
(`app/modules/orders/service.py` lines 47-62): for each cart line, re-fetch
the product from the session (seeing any earlier in-loop decrement), raise
`ConflictError` if it is missing or understocked, otherwise decrement its
stock in the session and snapshot the cart line into an `OrderItem`. -/
def validateAndDecrement (products : List Product) :
    List CartItem → Except ApiError (List Product × List OrderItem)
  | [] => .ok (products, [])
  | item :: rest =>
    match products.find? (fun p => p.id == item.product_id) with
    | none => .error (.conflict (insufficientStockMsg item.product_id))
    | some product =>
      if product.stock < item.quantity then
        .error (.conflict (insufficientStockMsg item.product_id))
      else
        match validateAndDecrement (decStock products item.product_id item.quantity) rest with
        | .error e => .error e
        | .ok (ps, ois) =>
          .ok (ps, { product_id := item.product_id, quantity := item.quantity,
                     unit_price := item.unit_price, subtotal := item.subtotal } :: ois)

/-- `OrderService.create_order` (`app/modules/orders/service.py` lines
15-74): load the cart, resolve shipping (and optionally billing, else
billing is the shipping address), run the validate-and-decrement loop over
the cart lines, then build the `Order` (status defaults to `pending`,
`total_amount` is the cart's recomputed total) and commit the order together
with the stock decrements. The single `db.commit()` sits at the very end,
so every raise before it leaves the durable state as it was after
`get_cart`. -/
def create_order (db : DB) (user_id : Nat) (data : OrderCreate) :
    DB × Except ApiError Order :=
  match get_cart db user_id with
  | (db1, .error e) => (db1, .error e)
  | (db1, .ok cart) =>
    match get_user_address db1 user_id data.shipping_address_id with
    | .error e => (db1, .error e)
    | .ok shipping_address =>
      match resolve_billing db1 user_id shipping_address data.billing_address_id with
      | .error e => (db1, .error e)
      | .ok billing_address =>
        match validateAndDecrement db1.products cart.items with
        | .error e => (db1, .error e)
        | .ok (products', order_items) =>
          let order : Order :=
            { id := db1.next_id, user_id := user_id, status := .pending,
              total_amount := cart.total_amount,
              shipping_address_id := shipping_address.id,
              billing_address_id := some billing_address.id,
              items := order_items }
          ({ db1 with products := products', orders := db1.orders ++ [order],
                      next_id := db1.next_id + 1 },
           .ok order)

/-- `ProductService.update_product` (`app/modules/products/service.py`
lines 173-236) specialised to a payload that sets only `price`: with
`name`, `sku`, `category_id` and `tag_ids` unset, every uniqueness check is
skipped and the update is a lookup followed by `setattr(product, "price",
value)` and a commit. -/
def update_product_price (db : DB) (product_id : Nat) (price : Rat) :
    DB × Except ApiError Product :=
  match db.products.find? (fun p => p.id == product_id) with
  | none =>
      (db, .error (.notFound
        ("Product with ID " ++ toString product_id ++ " not found.")))
  | some p =>
    let p' : Product := { p with price := price }
    ({ db with products := db.products.map (fun q => if q.id == product_id then p' else q) },
     .ok p')

/-- A cart line fails checkout validation against a product table when its
product is absent or understocked (the disjunction tested at
`app/modules/orders/service.py` line 50). -/
def lineFails (products : List Product) (item : CartItem) : Bool :=
  match products.find? (fun p => p.id == item.product_id) with
  | none => true
  | some p => p.stock < item.quantity

/-- Line-item price coherence: every cart line's stored `subtotal` is its
snapshotted `unit_price` times its `quantity` (spec §8 invariant). -/
def subtotalsOk (db : DB) : Prop :=
  ∀ i ∈ db.cart_items, i.subtotal = i.unit_price * ((i.quantity : Int) : Rat)

/-! Concrete database states used to instantiate the theorems. Because
`_get_or_create_cart` fetches a CART row by the user's id, a state must hold
a cart whose own id equals the user's id for any cart/order flow to get past
that lookup; the states below use `id = user_id = 1` accordingly. -/

/-- One user, one understocked product (stock 3), a cart holding 5 of it,
one address. -/
def dbC1 : DB :=
  { users := [{ id := 1 }], products := [{ id := 100, price := 5, stock := 3 }],
    carts := [{ id := 1, user_id := 1, total_amount := 0 }],
    cart_items := [{ id := 10, cart_id := 1, product_id := 100, quantity := 5,
                     unit_price := 5, subtotal := 25 }],
    addresses := [{ id := 7, user_id := 1 }], orders := [], next_id := 50 }

/-- Like `dbC1` but with sufficient stock (10), so checkout succeeds. -/
def dbC2 : DB :=
  { users := [{ id := 1 }], products := [{ id := 100, price := 5, stock := 10 }],
    carts := [{ id := 1, user_id := 1, total_amount := 0 }],
    cart_items := [{ id := 10, cart_id := 1, product_id := 100, quantity := 5,
                     unit_price := 5, subtotal := 25 }],
    addresses := [{ id := 7, user_id := 1 }], orders := [], next_id := 50 }

/-- One user with a completely empty cart and one address. -/
def dbC3 : DB :=
  { users := [{ id := 1 }], products := [],
    carts := [{ id := 1, user_id := 1, total_amount := 0 }],
    cart_items := [], addresses := [{ id := 7, user_id := 1 }],
    orders := [], next_id := 20 }

/-- One user with an empty cart and one product (stock 10, price 5). -/
def dbC4 : DB :=
  { users := [{ id := 1 }], products := [{ id := 100, price := 5, stock := 10 }],
    carts := [{ id := 1, user_id := 1, total_amount := 0 }],
    cart_items := [], addresses := [], orders := [], next_id := 30 }

/-- Like `dbC2`: a checkout-ready state for the price-immutability claim. -/
def dbC5 : DB :=
  { users := [{ id := 1 }], products := [{ id := 100, price := 5, stock := 10 }],
    carts := [{ id := 1, user_id := 1, total_amount := 0 }],
    cart_items := [{ id := 10, cart_id := 1, product_id := 100, quantity := 5,
                     unit_price := 5, subtotal := 25 }],
    addresses := [{ id := 7, user_id := 1 }], orders := [], next_id := 50 }

/-- The order committed by the successful checkout over `dbC5`. -/
def orderC5 : Order :=
  { id := 50, user_id := 1, status := .pending, total_amount := 25,
    shipping_address_id := 7, billing_address_id := some 7,
    items := [{ product_id := 100, quantity := 5, unit_price := 5, subtotal := 25 }] }

/-- The state committed by the successful checkout over `dbC5`: stock of
product 100 decremented 10 → 5, the order recorded, cart line untouched. -/
def dbC5f : DB :=
  { dbC5 with
    products := [{ id := 100, price := 5, stock := 5 }],
    orders := [orderC5],
    next_id := 51 }

/-- The order committed by the empty-cart checkout over `dbC8` (billing
omitted, so it equals the shipping address 7). -/
def orderC8 : Order :=
  { id := 20, user_id := 1, status := .pending, total_amount := 0,
    shipping_address_id := 7, billing_address_id := some 7, items := [] }

/-- A user who exists but has no cart row at all. -/
def dbC6 : DB :=
  { users := [{ id := 1 }], products := [], carts := [], cart_items := [],
    addresses := [], orders := [], next_id := 10 }

/-- Product with stock 6; the cart already holds 5 of it, so adding 3 more
makes the cumulative quantity 8 exceed the stock. -/
def dbC7 : DB :=
  { users := [{ id := 1 }], products := [{ id := 100, price := 5, stock := 6 }],
    carts := [{ id := 1, user_id := 1, total_amount := 0 }],
    cart_items := [{ id := 10, cart_id := 1, product_id := 100, quantity := 5,
                     unit_price := 5, subtotal := 25 }],
    addresses := [], orders := [], next_id := 40 }

/-- Checkout-ready state (empty cart suffices) with a single address 7 owned
by user 1; address 9 does not exist. -/
def dbC8 : DB :=
  { users := [{ id := 1 }], products := [],
    carts := [{ id := 1, user_id := 1, total_amount := 0 }],
    cart_items := [], addresses := [{ id := 7, user_id := 1 }],
    orders := [], next_id := 20 }

/-- Product with stock 10; the cart already holds a line of 3 for it with
snapshotted unit price 5. -/
def dbC9 : DB :=
  { users := [{ id := 1 }], products := [{ id := 100, price := 5, stock := 10 }],
    carts := [{ id := 1, user_id := 1, total_amount := 0 }],
    cart_items := [{ id := 10, cart_id := 1, product_id := 100, quantity := 3,
                     unit_price := 5, subtotal := 15 }],
    addresses := [], orders := [], next_id := 60 }

/-- The pre-existing cart line of `dbC9`. -/
def itC9 : CartItem :=
  { id := 10, cart_id := 1, product_id := 100, quantity := 3,
    unit_price := 5, subtotal := 15 }

/-- A cart with no items at all. -/
def dbC10 : DB :=
  { users := [{ id := 1 }], products := [],
    carts := [{ id := 1, user_id := 1, total_amount := 0 }],
    cart_items := [], addresses := [], orders := [], next_id := 70 }

/-- A cart holding one line item with id 10. -/
def dbC10b : DB :=
  { users := [{ id := 1 }], products := [{ id := 100, price := 5, stock := 10 }],
    carts := [{ id := 1, user_id := 1, total_amount := 0 }],
    cart_items := [{ id := 10, cart_id := 1, product_id := 100, quantity := 2,
                     unit_price := 5, subtotal := 10 }],
    addresses := [], orders := [], next_id := 70 }

/-! ### Supporting lemmas -/

/-- `_get_or_create_cart` only ever inserts a cart row: every other table is
untouched, whether it succeeds or fails. -/
theorem get_or_create_cart_fst (db : DB) (u : Nat) :
    (get_or_create_cart db u).1.cart_items = db.cart_items ∧
    (get_or_create_cart db u).1.products = db.products ∧
    (get_or_create_cart db u).1.orders = db.orders ∧
    (get_or_create_cart db u).1.addresses = db.addresses ∧
    (get_or_create_cart db u).1.users = db.users := by
  unfold get_or_create_cart
  split
  · simp
  · split <;> simp

/-- A successful `_get_or_create_cart` returns a cart row of the requested
user that is present in the resulting state, and changes no other table. -/
theorem get_or_create_cart_ok_spec (db : DB) (u : Nat) (db1 : DB) (c : Cart)
    (h : get_or_create_cart db u = (db1, .ok c)) :
    c ∈ db1.carts ∧ c.user_id = u ∧ db1.cart_items = db.cart_items ∧
    db1.products = db.products ∧ db1.orders = db.orders ∧
    db1.addresses = db.addresses ∧ db1.users = db.users := by
  unfold get_or_create_cart at h
  cases h1 : db.carts.find? (fun x => x.id == u) <;> rw [h1] at h
  · simp at h
  · cases h2 : db.carts.find? (fun x => x.user_id == u) <;> rw [h2] at h
    · simp only [Prod.mk.injEq, Except.ok.injEq] at h
      obtain ⟨hdb, hc⟩ := h
      subst hdb
      subst hc
      refine ⟨by simp, rfl, rfl, rfl, rfl, rfl, rfl⟩
    · simp only [Prod.mk.injEq, Except.ok.injEq] at h
      obtain ⟨hdb, hc⟩ := h
      subst hdb
      subst hc
      exact ⟨List.mem_of_find?_eq_some h2, by simpa using List.find?_some h2,
        rfl, rfl, rfl, rfl, rfl⟩

/-- A successful `get_cart` hands back the cart row's identity, the cart's
current item rows, and a `total_amount` recomputed as the sum of their
subtotals; it changes no table other than (possibly) `carts`. -/
theorem get_cart_ok_spec (db : DB) (u : Nat) (db1 : DB) (cart : CartRead)
    (h : get_cart db u = (db1, .ok cart)) :
    (∃ c ∈ db1.carts, c.user_id = u ∧ c.id = cart.id) ∧
    cart.items = cartItemsOf db1 cart.id ∧
    cart.total_amount = (cart.items.map (fun i => i.subtotal)).sum ∧
    db1.cart_items = db.cart_items ∧ db1.products = db.products ∧
    db1.orders = db.orders ∧ db1.addresses = db.addresses ∧
    db1.users = db.users := by
  unfold get_cart at h
  cases hg : get_or_create_cart db u with
  | mk dbx r =>
  rw [hg] at h
  cases r with
  | error e => simp at h
  | ok c =>
    simp only [Prod.mk.injEq, Except.ok.injEq] at h
    obtain ⟨hdb, hcart⟩ := h
    obtain ⟨hmem, huid, hci, hpr, hor, had, hus⟩ :=
      get_or_create_cart_ok_spec db u dbx c hg
    subst hdb
    subst hcart
    exact ⟨⟨c, hmem, huid, rfl⟩, rfl, rfl, hci, hpr, hor, had, hus⟩

/-- `get_cart` changes no table other than (possibly) `carts`, whether it
succeeds or fails. -/
theorem get_cart_fst (db : DB) (u : Nat) :
    (get_cart db u).1.cart_items = db.cart_items ∧
    (get_cart db u).1.products = db.products ∧
    (get_cart db u).1.orders = db.orders ∧
    (get_cart db u).1.addresses = db.addresses ∧
    (get_cart db u).1.users = db.users := by
  unfold get_cart
  have hf := get_or_create_cart_fst db u
  cases hg : get_or_create_cart db u with
  | mk dbx r =>
  rw [hg] at hf
  cases r <;> simpa using hf

/-- `find?` looks only at ids, so an in-session stock decrement of a
DIFFERENT product does not change what it finds. -/
theorem find?_decStock (ps : List Product) (pid : Nat) (q : Int) (x : Nat)
    (hx : x ≠ pid) :
    (decStock ps pid q).find? (fun p => p.id == x) = ps.find? (fun p => p.id == x) := by
  unfold decStock
  rw [List.find?_map]
  have hpred : ((fun p : Product => p.id == x) ∘
      (fun p : Product => if p.id == pid then { p with stock := p.stock - q } else p))
      = fun p : Product => p.id == x := by
    funext p
    by_cases hp : p.id = pid
    · simp [hp]
    · simp [hp]
  rw [hpred]
  cases hf : ps.find? (fun p => p.id == x) with
  | none => simp
  | some p =>
    have hpx : p.id = x := by simpa using List.find?_some hf
    have hppid : ¬ p.id = pid := by rw [hpx]; exact hx
    simp [hppid]

/-- A cart line's pass/fail status against the product table is unchanged by
an in-session stock decrement of a different product. -/
theorem lineFails_decStock (ps : List Product) (pid : Nat) (q : Int)
    (item : CartItem) (hx : item.product_id ≠ pid) :
    lineFails (decStock ps pid q) item = lineFails ps item := by
  unfold lineFails
  rw [find?_decStock ps pid q item.product_id hx]

/-- If the cart lines carry pairwise-distinct products and some line fails
validation against the incoming product table, the checkout loop raises the
`ConflictError` naming a failing line's product. -/
theorem validate_error_of_fail (ps : List Product) (items : List CartItem)
    (hdist : (items.map (fun i => i.product_id)).Nodup)
    (hex : ∃ item ∈ items, lineFails ps item = true) :
    ∃ pid, validateAndDecrement ps items = .error (.conflict (insufficientStockMsg pid)) ∧
      ∃ item ∈ items, item.product_id = pid ∧ lineFails ps item = true := by
  induction items generalizing ps with
  | nil =>
    obtain ⟨item, hmem, _⟩ := hex
    simp at hmem
  | cons item rest ih =>
    rw [List.map_cons, List.nodup_cons] at hdist
    by_cases hfail : lineFails ps item = true
    · refine ⟨item.product_id, ?_, item, by simp, rfl, hfail⟩
      unfold validateAndDecrement
      unfold lineFails at hfail
      cases hf : ps.find? (fun p => p.id == item.product_id)
      · rfl
      · rename_i p
        rw [hf] at hfail
        dsimp only at hfail ⊢
        simp only [decide_eq_true_eq] at hfail
        rw [if_pos hfail]
    · have hfail' : lineFails ps item = false := by
        cases hlf : lineFails ps item
        · rfl
        · exact absurd hlf hfail
      obtain ⟨it, hmem, hit⟩ := hex
      have hit_rest : it ∈ rest := by
        rcases List.mem_cons.mp hmem with heq | hr
        · rw [heq] at hit
          rw [hit] at hfail'
          cases hfail'
        · exact hr
      unfold lineFails at hfail'
      cases hf : ps.find? (fun p => p.id == item.product_id)
      · rw [hf] at hfail'
        dsimp only at hfail'
        cases hfail'
      · rename_i p
        rw [hf] at hfail'
        dsimp only at hfail'
        simp only [decide_eq_false_iff_not] at hfail'
        have hstep : ∀ j ∈ rest,
            lineFails (decStock ps item.product_id item.quantity) j = lineFails ps j := by
          intro j hj
          refine lineFails_decStock ps item.product_id item.quantity j ?_
          intro hcontra
          exact hdist.1 (hcontra ▸ List.mem_map_of_mem (fun i => i.product_id) hj)
        obtain ⟨pid, herr, it', hmem', hpid, hfv⟩ :=
          ih (decStock ps item.product_id item.quantity) hdist.2
            ⟨it, hit_rest, by rw [hstep it hit_rest]; exact hit⟩
        refine ⟨pid, ?_, it', List.mem_cons_of_mem item hmem', hpid,
          by rw [← hstep it' hmem']; exact hfv⟩
        unfold validateAndDecrement
        rw [hf]
        dsimp only
        rw [if_neg hfail', herr]

/-- A successful checkout loop returns exactly one `OrderItem` per cart
line, copying `product_id`, `quantity`, the snapshotted `unit_price`, and
the stored `subtotal`. -/
theorem validate_ok_items (ps : List Product) (items : List CartItem)
    (ps' : List Product) (ois : List OrderItem)
    (h : validateAndDecrement ps items = .ok (ps', ois)) :
    ois = items.map (fun i =>
      { product_id := i.product_id, quantity := i.quantity,
        unit_price := i.unit_price, subtotal := i.subtotal }) := by
  induction items generalizing ps ps' ois with
  | nil =>
    unfold validateAndDecrement at h
    simp only [Except.ok.injEq, Prod.mk.injEq] at h
    rw [← h.2, List.map_nil]
  | cons item rest ih =>
    unfold validateAndDecrement at h
    cases hf : ps.find? (fun p => p.id == item.product_id)
    · rw [hf] at h
      dsimp only at h
      cases h
    · rename_i p
      rw [hf] at h
      dsimp only at h
      by_cases hs : p.stock < item.quantity
      · rw [if_pos hs] at h
        cases h
      · rw [if_neg hs] at h
        cases hv : validateAndDecrement (decStock ps item.product_id item.quantity) rest
        · rw [hv] at h
          dsimp only at h
          cases h
        · rename_i val
          obtain ⟨psr, oisr⟩ := val
          rw [hv] at h
          dsimp only at h
          simp only [Except.ok.injEq, Prod.mk.injEq] at h
          rw [← h.2, List.map_cons, ih (decStock ps item.product_id item.quantity) psr oisr hv]

/-- A price-only product update touches only the `products` table. -/
theorem update_product_price_fst (db : DB) (pid : Nat) (price : Rat) :
    (update_product_price db pid price).1.orders = db.orders ∧
    (update_product_price db pid price).1.cart_items = db.cart_items ∧
    (update_product_price db pid price).1.carts = db.carts := by
  unfold update_product_price
  split <;> simp

/-- `find?` of a predicate whose filter leaves exactly one element returns
that element. -/
theorem find?_of_filter_single {α : Type} (l : List α) (p : α → Bool) (a : α)
    (h : l.filter p = [a]) : l.find? p = some a := by
  rw [← List.filter_head? p l, h]
  rfl

/-- Replacing, by row id, the single line satisfying a predicate with an
updated line of the same id that still satisfies it leaves the predicate's
filter holding exactly the updated line (row ids assumed unique). -/
theorem filter_map_replace (l : List CartItem) (it it' : CartItem) (p : CartItem → Bool)
    (hids : (l.map (fun i => i.id)).Nodup)
    (hfilter : l.filter p = [it]) (hp' : p it' = true) :
    (l.map (fun i => if i.id == it.id then it' else i)).filter p = [it'] := by
  induction l with
  | nil => simp at hfilter
  | cons a l ih =>
    rw [List.map_cons, List.nodup_cons] at hids
    by_cases hpa : p a = true
    · rw [List.filter_cons_of_pos hpa] at hfilter
      simp only [List.cons.injEq] at hfilter
      obtain ⟨ha, hrest⟩ := hfilter
      have hfa : (if a.id == it.id then it' else a) = it' := by
        rw [ha]
        simp
      have hl : ∀ x ∈ l, (fun i => if i.id == it.id then it' else i) x = x := by
        intro x hx
        have hxid : ¬ x.id = it.id := by
          intro hcontra
          refine hids.1 ?_
          rw [ha, ← hcontra]
          exact List.mem_map_of_mem (fun i => i.id) hx
        simp [hxid]
      rw [List.map_cons, hfa, List.map_congr_left hl, List.map_id',
        List.filter_cons_of_pos hp', hrest]
    · have hpa' : p a = false := by
        cases hq : p a
        · rfl
        · exact absurd hq hpa
      rw [List.filter_cons_of_neg (by simp [hpa'])] at hfilter
      have hit_mem : it ∈ l :=
        List.mem_of_mem_filter (by rw [hfilter]; exact List.mem_singleton_self it)
      have haid : ¬ a.id = it.id := by
        intro hcontra
        refine hids.1 ?_
        rw [hcontra]
        exact List.mem_map_of_mem (fun i => i.id) hit_mem
      rw [List.map_cons]
      have hfa : (if a.id == it.id then it' else a) = a := by simp [haid]
      rw [hfa, List.filter_cons_of_neg (by simp [hpa'])]
      exact ih hids.2 hfilter

/-- `add_item` keeps every line's `subtotal = unit_price * quantity`. -/
theorem add_item_subtotalsOk (db : DB) (u : Nat) (d : CartItemCreate)
    (h : subtotalsOk db) : subtotalsOk (add_item db u d).1 := by
  unfold add_item
  have hf := get_or_create_cart_fst db u
  cases hg : get_or_create_cart db u with
  | mk db1 r =>
  rw [hg] at hf
  dsimp only at hf
  have hdb1 : subtotalsOk db1 := by
    unfold subtotalsOk
    rw [hf.1]
    exact h
  cases r with
  | error e => exact hdb1
  | ok cart =>
    dsimp only
    cases hp : db1.products.find? (fun q => q.id == d.product_id)
    · exact hdb1
    · rename_i product
      dsimp only
      split
      · exact hdb1
      · cases hi : db1.cart_items.find?
            (fun i => i.cart_id == cart.id && i.product_id == d.product_id)
        · dsimp only
          intro i hi'
          rcases List.mem_append.mp hi' with hmem | hmem
          · exact hdb1 i hmem
          · rw [List.mem_singleton.mp hmem]
        · rename_i item
          dsimp only
          intro i hi'
          rcases List.mem_map.mp hi' with ⟨j, hj, hfj⟩
          by_cases hjid : j.id = item.id
          · rw [← hfj]
            simp [hjid]
          · rw [← hfj]
            simp only [hjid, beq_iff_eq, if_neg (by exact hjid)]
            exact hdb1 j hj

/-- `update_item` keeps every line's `subtotal = unit_price * quantity`. -/
theorem update_item_subtotalsOk (db : DB) (u iid : Nat) (d : CartItemUpdate)
    (h : subtotalsOk db) : subtotalsOk (update_item db u iid d).1 := by
  unfold update_item
  have hf := get_or_create_cart_fst db u
  cases hg : get_or_create_cart db u with
  | mk db1 r =>
  rw [hg] at hf
  dsimp only at hf
  have hdb1 : subtotalsOk db1 := by
    unfold subtotalsOk
    rw [hf.1]
    exact h
  cases r with
  | error e => exact hdb1
  | ok cart =>
    dsimp only
    cases hi : db1.cart_items.find? (fun i => i.id == iid && i.cart_id == cart.id)
    · exact hdb1
    · rename_i item
      dsimp only
      cases hp : db1.products.find? (fun p => p.id == item.product_id)
      · exact hdb1
      · rename_i product
        dsimp only
        split
        · exact hdb1
        · intro i hi'
          rcases List.mem_map.mp hi' with ⟨j, hj, hfj⟩
          by_cases hjid : j.id = item.id
          · rw [← hfj]
            simp [hjid]
          · rw [← hfj]
            simp only [hjid, beq_iff_eq, if_neg (by exact hjid)]
            exact hdb1 j hj

/-- `remove_item` keeps every line's `subtotal = unit_price * quantity`. -/
theorem remove_item_subtotalsOk (db : DB) (u iid : Nat)
    (h : subtotalsOk db) : subtotalsOk (remove_item db u iid).1 := by
  unfold remove_item
  have hf := get_or_create_cart_fst db u
  cases hg : get_or_create_cart db u with
  | mk db1 r =>
  rw [hg] at hf
  dsimp only at hf
  have hdb1 : subtotalsOk db1 := by
    unfold subtotalsOk
    rw [hf.1]
    exact h
  cases r with
  | error e => exact hdb1
  | ok cart =>
    dsimp only
    split
    · exact hdb1
    · cases hi : db1.cart_items.find? (fun i => i.id == iid && i.cart_id == cart.id)
      · exact hdb1
      · rename_i item
        dsimp only
        intro i hi'
        exact hdb1 i (List.mem_of_mem_filter hi')

/-- `clear_cart` keeps every line's `subtotal = unit_price * quantity`. -/
theorem clear_cart_subtotalsOk (db : DB) (u : Nat)
    (h : subtotalsOk db) : subtotalsOk (clear_cart db u).1 := by
  unfold clear_cart
  have hf := get_or_create_cart_fst db u
  cases hg : get_or_create_cart db u with
  | mk db1 r =>
  rw [hg] at hf
  dsimp only at hf
  have hdb1 : subtotalsOk db1 := by
    unfold subtotalsOk
    rw [hf.1]
    exact h
  cases r with
  | error e => exact hdb1
  | ok cart =>
    dsimp only
    intro i hi'
    exact hdb1 i (List.mem_of_mem_filter hi')

/-- A failed checkout commits nothing beyond the `get_cart` call: products,
orders and cart line items are exactly those of the incoming state. -/
theorem create_order_error_frame (db : DB) (u : Nat) (d : OrderCreate) (e : ApiError)
    (h : (create_order db u d).2 = .error e) :
    (create_order db u d).1.products = db.products ∧
    (create_order db u d).1.orders = db.orders ∧
    (create_order db u d).1.cart_items = db.cart_items := by
  unfold create_order at h ⊢
  have hf := get_cart_fst db u
  cases hg : get_cart db u with
  | mk db1 r =>
  rw [hg] at hf h
  dsimp only at hf h
  cases r with
  | error e' => exact ⟨hf.2.1, hf.2.2.1, hf.1⟩
  | ok cart =>
    dsimp only at h ⊢
    cases hs : get_user_address db1 u d.shipping_address_id
    · exact ⟨hf.2.1, hf.2.2.1, hf.1⟩
    · rename_i shipping
      rw [hs] at h
      dsimp only at h ⊢
      cases hb : resolve_billing db1 u shipping d.billing_address_id
      · exact ⟨hf.2.1, hf.2.2.1, hf.1⟩
      · rename_i billing
        rw [hb] at h
        dsimp only at h ⊢
        cases hv : validateAndDecrement db1.products cart.items
        · exact ⟨hf.2.1, hf.2.2.1, hf.1⟩
        · rename_i val
          obtain ⟨ps', ois⟩ := val
          rw [hv] at h
          dsimp only at h
          cases h

/-- Dissection of a successful checkout: the intermediate values every
branch passed through, the shape of the committed order, and the shape of
the committed state. -/
theorem create_order_ok_spec (db : DB) (u : Nat) (d : OrderCreate) (db' : DB) (o : Order)
    (h : create_order db u d = (db', .ok o)) :
    ∃ db1 cart shipping_address billing_address ps' ois,
      get_cart db u = (db1, .ok cart) ∧
      get_user_address db1 u d.shipping_address_id = .ok shipping_address ∧
      resolve_billing db1 u shipping_address d.billing_address_id = .ok billing_address ∧
      validateAndDecrement db1.products cart.items = .ok (ps', ois) ∧
      o = { id := db1.next_id, user_id := u, status := .pending,
            total_amount := cart.total_amount,
            shipping_address_id := shipping_address.id,
            billing_address_id := some billing_address.id,
            items := ois } ∧
      db' = { db1 with
        products := ps',
        orders := db1.orders ++ [o],
        next_id := db1.next_id + 1 } := by
  unfold create_order at h
  cases hg : get_cart db u with
  | mk db1 r =>
  rw [hg] at h
  cases r with
  | error e => simp at h
  | ok cart =>
    dsimp only at h
    cases hs : get_user_address db1 u d.shipping_address_id
    · rw [hs] at h
      dsimp only at h
      cases h
    · rename_i shipping
      rw [hs] at h
      dsimp only at h
      cases hb : resolve_billing db1 u shipping d.billing_address_id
      · rw [hb] at h
        dsimp only at h
        cases h
      · rename_i billing
        rw [hb] at h
        dsimp only at h
        cases hv : validateAndDecrement db1.products cart.items
        · rw [hv] at h
          dsimp only at h
          cases h
        · rename_i val
          obtain ⟨ps', ois⟩ := val
          rw [hv] at h
          dsimp only at h
          simp only [Prod.mk.injEq, Except.ok.injEq] at h
          obtain ⟨hdb, ho⟩ := h
          refine ⟨db1, cart, shipping, billing, ps', ois, rfl, hs, hb, hv,
            ho.symm, ?_⟩
          rw [← ho]
          exact hdb.symm

/-! ### Claim theorems -/

/-- C6: the get-or-create cart operation of the mounted variant
(`CartService._get_or_create_cart`) FAILS for user 1, who exists but has no
cart yet: its opening lookup `db.get(Cart, user_id)` fetches a CART row by
primary key `user_id`, misses, and raises `NotFoundError("User with ID 1
not found")` even though the user exists — no cart is created lazily.
The older `src/carts/service.py` variant (`get_or_create_cart_src`),
matching the docstring and the claim, creates the empty cart instead. -/
theorem c6_get_or_create_cart_rejects_cartless_user :
    get_or_create_cart dbC6 1 =
      (dbC6, .error (.notFound "User with ID 1 not found")) ∧
    (∃ c, (get_or_create_cart_src dbC6 1).2 = .ok c ∧ c.user_id = 1) := by
  exact ⟨rfl, ⟨_, rfl, rfl⟩⟩

/-- C3: checkout for user 1, whose cart exists but has NO line items, does
not fail with an EmptyCart-kind error: `create_order` runs its loop over
zero lines and commits an order with zero items and `total_amount = 0`.
This contradicts the service's own docstring ("ConflictError: If the cart
is empty") — evidence for the code bug. -/
theorem c3_create_order_accepts_empty_cart :
    (create_order dbC3 1 { shipping_address_id := 7, billing_address_id := none }).2 =
      .ok { id := 20, user_id := 1, status := .pending, total_amount := 0,
            shipping_address_id := 7, billing_address_id := some 7, items := [] } ∧
    (create_order dbC3 1
        { shipping_address_id := 7, billing_address_id := none }).1.orders.length = 1 := by
  exact ⟨rfl, rfl⟩

/-- C2 counterexample: on `dbC2` (product 100 with stock 10, cart of user 1
holding 5 of it) the checkout SUCCEEDS, yet the user's cart line items are
exactly what they were before — the cart is not empty immediately after
checkout, refuting the claim that all cart line items are deleted. -/
theorem c2_checkout_leaves_cart_nonempty_cex :
    isOk (create_order dbC2 1
      { shipping_address_id := 7, billing_address_id := none }).2 = true ∧
    cartItemsOf (create_order dbC2 1
      { shipping_address_id := 7, billing_address_id := none }).1 1 = dbC2.cart_items ∧
    dbC2.cart_items ≠ [] := by
  refine ⟨rfl, rfl, by decide⟩

/-- C2 amended: `create_order` never deletes cart line items — after every
successful checkout the cart line-item table equals the one before the
call, and the user's cart row still exists. (The original claim, that the
user's cart is empty immediately after checkout, fails; only the "cart row
still exists" half survives.) -/
theorem c2_checkout_preserves_cart_items (db : DB) (u : Nat) (d : OrderCreate)
    (db' : DB) (o : Order) (h : create_order db u d = (db', .ok o)) :
    db'.cart_items = db.cart_items ∧ ∃ c ∈ db'.carts, c.user_id = u := by
  obtain ⟨db1, cart, sa, ba, ps', ois, hg, _, _, _, _, hdb⟩ :=
    create_order_ok_spec db u d db' o h
  obtain ⟨⟨c, hc, hcu, _⟩, _, _, hci, _, _, _, _⟩ := get_cart_ok_spec db u db1 cart hg
  subst hdb
  exact ⟨hci, c, hc, hcu⟩

/-- C2 amended witness: the amended theorem instantiated on the concrete
successful checkout over `dbC2`. -/
theorem c2_checkout_preserves_cart_items_witness :
    ((create_order dbC2 1
      { shipping_address_id := 7, billing_address_id := none }).1).cart_items =
        dbC2.cart_items ∧
    ∃ c ∈ ((create_order dbC2 1
      { shipping_address_id := 7, billing_address_id := none }).1).carts,
      c.user_id = 1 :=
  c2_checkout_preserves_cart_items dbC2 1
    { shipping_address_id := 7, billing_address_id := none } _ _ rfl

/-- C1: whenever the cart loads, the shipping (and any given billing)
address resolves, the cart's lines carry pairwise-distinct products, and
some line fails the stock validation `product.stock >= line.quantity` (or
its product row is gone), checkout fails with the `ConflictError` naming a
failing line's product, and the committed state keeps the original
products (no stock decrement, including for lines that passed), the
original orders (no order or order line item created) and the original
cart line items. -/
theorem c1_checkout_insufficient_stock_is_atomic
    (db : DB) (u : Nat) (d : OrderCreate) (db1 : DB) (cart : CartRead)
    (h1 : get_cart db u = (db1, .ok cart))
    (h2 : isOk (get_user_address db1 u d.shipping_address_id) = true)
    (h3 : ∀ b, d.billing_address_id = some b → isOk (get_user_address db1 u b) = true)
    (hdist : (cart.items.map (fun i => i.product_id)).Nodup)
    (hex : ∃ item ∈ cart.items, lineFails db.products item = true) :
    ∃ pid,
      (create_order db u d).2 = .error (.conflict (insufficientStockMsg pid)) ∧
      (∃ item ∈ cart.items, item.product_id = pid ∧ lineFails db.products item = true) ∧
      (create_order db u d).1.products = db.products ∧
      (create_order db u d).1.orders = db.orders ∧
      (create_order db u d).1.cart_items = db.cart_items := by
  obtain ⟨_, _, _, hci, hpr, hor, _, _⟩ := get_cart_ok_spec db u db1 cart h1
  have hex1 : ∃ item ∈ cart.items, lineFails db1.products item = true := by
    rw [hpr]
    exact hex
  obtain ⟨pid, herr, hwit⟩ := validate_error_of_fail db1.products cart.items hdist hex1
  have hres : create_order db u d = (db1, .error (.conflict (insufficientStockMsg pid))) := by
    unfold create_order
    rw [h1]
    dsimp only
    cases hs : get_user_address db1 u d.shipping_address_id with
    | error e =>
      rw [hs] at h2
      simp [isOk] at h2
    | ok shipping =>
      dsimp only
      cases hb : resolve_billing db1 u shipping d.billing_address_id with
      | error e =>
        cases hbo : d.billing_address_id with
        | none =>
          rw [hbo] at hb
          unfold resolve_billing at hb
          cases hb
        | some b =>
          have hb3 := h3 b hbo
          rw [hbo] at hb
          unfold resolve_billing at hb
          dsimp only at hb
          rw [hb] at hb3
          simp [isOk] at hb3
      | ok billing =>
        dsimp only
        rw [herr]
  refine ⟨pid, ?_, ?_, ?_, ?_, ?_⟩
  · rw [hres]
  · rw [← hpr]
    exact hwit
  · rw [hres]
    exact hpr
  · rw [hres]
    exact hor
  · rw [hres]
    exact hci

/-- C1 witness: the atomicity theorem instantiated on `dbC1`, whose single
cart line requests 5 units of product 100 while only 3 are in stock. -/
theorem c1_checkout_insufficient_stock_is_atomic_witness :
    ∃ pid,
      (create_order dbC1 1 { shipping_address_id := 7, billing_address_id := none }).2 =
        .error (.conflict (insufficientStockMsg pid)) ∧
      (∃ item ∈ [({ id := 10, cart_id := 1, product_id := 100, quantity := 5,
                    unit_price := 5, subtotal := 25 } : CartItem)],
        item.product_id = pid ∧ lineFails dbC1.products item = true) ∧
      (create_order dbC1 1
        { shipping_address_id := 7, billing_address_id := none }).1.products = dbC1.products ∧
      (create_order dbC1 1
        { shipping_address_id := 7, billing_address_id := none }).1.orders = dbC1.orders ∧
      (create_order dbC1 1
        { shipping_address_id := 7, billing_address_id := none }).1.cart_items =
          dbC1.cart_items :=
  c1_checkout_insufficient_stock_is_atomic dbC1 1
    { shipping_address_id := 7, billing_address_id := none } dbC1
    { id := 1, user_id := 1,
      items := [{ id := 10, cart_id := 1, product_id := 100, quantity := 5,
                  unit_price := 5, subtotal := 25 }],
      total_amount := 25 }
    (by norm_num [get_cart, get_or_create_cart, cartItemsOf, dbC1]) rfl
    (fun b hb => nomatch hb) (by decide)
    ⟨{ id := 10, cart_id := 1, product_id := 100, quantity := 5,
       unit_price := 5, subtotal := 25 }, by decide, rfl⟩

/-- Cart rows already present survive `_get_or_create_cart` untouched (it
only ever appends a new cart). -/
theorem get_or_create_cart_carts_mono (db : DB) (u : Nat) (c : Cart)
    (hc : c ∈ db.carts) : c ∈ (get_or_create_cart db u).1.carts := by
  unfold get_or_create_cart
  split
  · exact hc
  · split
    · exact hc
    · simp only [List.mem_append]
      exact Or.inl hc

/-- `add_item` never writes the `carts` table beyond its get-or-create. -/
theorem add_item_carts (db : DB) (u : Nat) (d : CartItemCreate) :
    (add_item db u d).1.carts = (get_or_create_cart db u).1.carts := by
  unfold add_item
  cases hg : get_or_create_cart db u with
  | mk db1 r =>
  dsimp only
  cases r with
  | error e => rfl
  | ok cart =>
    dsimp only
    cases hp : db1.products.find? (fun q => q.id == d.product_id)
    · rfl
    · rename_i product
      dsimp only
      split
      · rfl
      · cases hi : db1.cart_items.find?
            (fun i => i.cart_id == cart.id && i.product_id == d.product_id)
        · rfl
        · rfl

/-- `update_item` never writes the `carts` table beyond its get-or-create. -/
theorem update_item_carts (db : DB) (u iid : Nat) (d : CartItemUpdate) :
    (update_item db u iid d).1.carts = (get_or_create_cart db u).1.carts := by
  unfold update_item
  cases hg : get_or_create_cart db u with
  | mk db1 r =>
  dsimp only
  cases r with
  | error e => rfl
  | ok cart =>
    dsimp only
    cases hi : db1.cart_items.find? (fun i => i.id == iid && i.cart_id == cart.id)
    · rfl
    · rename_i item
      dsimp only
      cases hp : db1.products.find? (fun p => p.id == item.product_id)
      · rfl
      · rename_i product
        dsimp only
        split
        · rfl
        · rfl

/-- `remove_item` never writes the `carts` table beyond its get-or-create. -/
theorem remove_item_carts (db : DB) (u iid : Nat) :
    (remove_item db u iid).1.carts = (get_or_create_cart db u).1.carts := by
  unfold remove_item
  cases hg : get_or_create_cart db u with
  | mk db1 r =>
  dsimp only
  cases r with
  | error e => rfl
  | ok cart =>
    dsimp only
    split
    · rfl
    · cases hi : db1.cart_items.find? (fun i => i.id == iid && i.cart_id == cart.id)
      · rfl
      · rfl

/-- `clear_cart` never writes the `carts` table beyond its get-or-create. -/
theorem clear_cart_carts (db : DB) (u : Nat) :
    (clear_cart db u).1.carts = (get_or_create_cart db u).1.carts := by
  unfold clear_cart
  cases hg : get_or_create_cart db u with
  | mk db1 r =>
  dsimp only
  cases r with
  | error e => rfl
  | ok cart => rfl

/-- C4 counterexample: after the mutation `add_item` (3 units of product
100 at price 5 into user 1's empty cart) the STORED `Cart.total_amount`
column still holds its default 0, while the sum of the cart's line
subtotals is 15 — after this mutation the cart's stored total does not
equal the sum of its line items' subtotals, refuting the claim for the
stored column (reads recompute a total instead; see the amended theorem). -/
theorem c4_stored_total_not_maintained_cex :
    ((add_item dbC4 1 { product_id := 100, quantity := 3 }).1.carts.find?
      (fun c => c.user_id == 1)) =
        some { id := 1, user_id := 1, total_amount := 0 } ∧
    ((cartItemsOf (add_item dbC4 1 { product_id := 100, quantity := 3 }).1 1).map
      (fun i => i.subtotal)).sum = 15 ∧
    (0 : Rat) ≠ 15 := by
  refine ⟨rfl, ?_, by norm_num⟩
  norm_num [add_item, get_or_create_cart, cartItemsOf, dbC4]

/-- C4 amended: the stored `Cart.total_amount` column is not maintained by
mutations — cart rows, with whatever total they hold, pass through all four
mutations unchanged — and it takes no part in reads. What holds instead:
every mutation preserves `subtotal = unit_price * quantity` for every line,
and every read (`get_cart`) returns a `total_amount` recomputed as the sum
of the current line subtotals (with each line satisfying the subtotal
equation). -/
theorem c4_totals_recomputed_on_read (db : DB) (h : subtotalsOk db) :
    (∀ u d, subtotalsOk (add_item db u d).1) ∧
    (∀ u iid d, subtotalsOk (update_item db u iid d).1) ∧
    (∀ u iid, subtotalsOk (remove_item db u iid).1) ∧
    (∀ u, subtotalsOk (clear_cart db u).1) ∧
    (∀ u d c, c ∈ db.carts → c ∈ (add_item db u d).1.carts) ∧
    (∀ u iid d c, c ∈ db.carts → c ∈ (update_item db u iid d).1.carts) ∧
    (∀ u iid c, c ∈ db.carts → c ∈ (remove_item db u iid).1.carts) ∧
    (∀ u c, c ∈ db.carts → c ∈ (clear_cart db u).1.carts) ∧
    (∀ u db1 c, get_cart db u = (db1, .ok c) →
      c.total_amount = (c.items.map (fun i => i.subtotal)).sum ∧
      ∀ i ∈ c.items, i.subtotal = i.unit_price * ((i.quantity : Int) : Rat)) := by
  refine ⟨fun u d => add_item_subtotalsOk db u d h,
    fun u iid d => update_item_subtotalsOk db u iid d h,
    fun u iid => remove_item_subtotalsOk db u iid h,
    fun u => clear_cart_subtotalsOk db u h,
    fun u d c hc => add_item_carts db u d ▸ get_or_create_cart_carts_mono db u c hc,
    fun u iid d c hc =>
      update_item_carts db u iid d ▸ get_or_create_cart_carts_mono db u c hc,
    fun u iid c hc => remove_item_carts db u iid ▸ get_or_create_cart_carts_mono db u c hc,
    fun u c hc => clear_cart_carts db u ▸ get_or_create_cart_carts_mono db u c hc,
    fun u db1 c hg => ?_⟩
  obtain ⟨_, hitems, htot, hci, _, _, _, _⟩ := get_cart_ok_spec db u db1 c hg
  refine ⟨htot, fun i hi => ?_⟩
  rw [hitems] at hi
  exact h i (hci ▸ List.mem_of_mem_filter hi)

/-- C4 amended witness: the amended theorem instantiated on `dbC4`, whose
(empty) line-item table trivially satisfies the subtotal invariant. -/
theorem c4_totals_recomputed_on_read_witness :
    (∀ u d, subtotalsOk (add_item dbC4 u d).1) ∧
    (∀ u iid d, subtotalsOk (update_item dbC4 u iid d).1) ∧
    (∀ u iid, subtotalsOk (remove_item dbC4 u iid).1) ∧
    (∀ u, subtotalsOk (clear_cart dbC4 u).1) ∧
    (∀ u d c, c ∈ dbC4.carts → c ∈ (add_item dbC4 u d).1.carts) ∧
    (∀ u iid d c, c ∈ dbC4.carts → c ∈ (update_item dbC4 u iid d).1.carts) ∧
    (∀ u iid c, c ∈ dbC4.carts → c ∈ (remove_item dbC4 u iid).1.carts) ∧
    (∀ u c, c ∈ dbC4.carts → c ∈ (clear_cart dbC4 u).1.carts) ∧
    (∀ u db1 c, get_cart dbC4 u = (db1, .ok c) →
      c.total_amount = (c.items.map (fun i => i.subtotal)).sum ∧
      ∀ i ∈ c.items, i.subtotal = i.unit_price * ((i.quantity : Int) : Rat)) :=
  c4_totals_recomputed_on_read dbC4 (by simp [subtotalsOk, dbC4])

/-- C5: every line of a committed order copies `product_id`, `quantity`,
the snapshotted `unit_price` and the stored `subtotal` from a cart line of
the pre-checkout state (the product catalog's current price is never
re-read into the order), the order is stored, and a later price-only
product update rewrites only the `products` table — the stored orders,
hence every `OrderLineItem.unit_price`, `OrderLineItem.subtotal` and
`Order.total_amount`, stay exactly as committed. -/
theorem c5_order_prices_immutable (db : DB) (u : Nat) (d : OrderCreate)
    (db' : DB) (o : Order) (h : create_order db u d = (db', .ok o)) :
    (∀ oi ∈ o.items, ∃ ci ∈ db.cart_items,
      ci.product_id = oi.product_id ∧ ci.quantity = oi.quantity ∧
      oi.unit_price = ci.unit_price ∧ oi.subtotal = ci.subtotal) ∧
    o ∈ db'.orders ∧
    (∀ pid price, (update_product_price db' pid price).1.orders = db'.orders) := by
  obtain ⟨db1, cart, sa, ba, ps', ois, hg, _, _, hv, ho, hdb⟩ :=
    create_order_ok_spec db u d db' o h
  obtain ⟨_, hitems, _, hci, _, _, _, _⟩ := get_cart_ok_spec db u db1 cart hg
  have hois := validate_ok_items db1.products cart.items ps' ois hv
  refine ⟨?_, ?_, fun pid price => (update_product_price_fst db' pid price).1⟩
  · intro oi hoi
    have hoi' : oi ∈ ois := by
      rw [ho] at hoi
      exact hoi
    rw [hois] at hoi'
    obtain ⟨ci, hcimem, hfci⟩ := List.mem_map.mp hoi'
    refine ⟨ci, ?_, ?_, ?_, ?_, ?_⟩
    · rw [← hci]
      rw [hitems] at hcimem
      exact List.mem_of_mem_filter hcimem
    · rw [← hfci]
    · rw [← hfci]
    · rw [← hfci]
    · rw [← hfci]
  · rw [hdb]
    simp

/-- C5 witness: the theorem instantiated on the concrete successful
checkout over `dbC5`, which commits `orderC5` into `dbC5f`. -/
theorem c5_order_prices_immutable_witness :
    (∀ oi ∈ orderC5.items, ∃ ci ∈ dbC5.cart_items,
      ci.product_id = oi.product_id ∧ ci.quantity = oi.quantity ∧
      oi.unit_price = ci.unit_price ∧ oi.subtotal = ci.subtotal) ∧
    orderC5 ∈ dbC5f.orders ∧
    (∀ pid price, (update_product_price dbC5f pid price).1.orders = dbC5f.orders) :=
  c5_order_prices_immutable dbC5 1
    { shipping_address_id := 7, billing_address_id := none } dbC5f orderC5
    (by norm_num [create_order, get_cart, get_or_create_cart, cartItemsOf,
      get_user_address, get_user, resolve_billing, validateAndDecrement,
      decStock, dbC5, dbC5f, orderC5])

/-- C7 counterexample: in `dbC7` product 100 has stock 6 and user 1's cart
already holds 5 of it; adding 3 more makes the cumulative quantity 8 exceed
the stock, yet the call SUCCEEDS — only the requested quantity 3 is checked
against stock 6 — and the line is incremented to 8, refuting the claim that
the cumulative quantity is validated. -/
theorem c7_cumulative_quantity_not_checked_cex :
    isOk (add_item dbC7 1 { product_id := 100, quantity := 3 }).2 = true ∧
    ((add_item dbC7 1 { product_id := 100, quantity := 3 }).1.cart_items.map
      (fun i => i.quantity)) = [8] ∧
    ((5 : Int) + 3 > 6) := by
  refine ⟨rfl, rfl, by decide⟩

/-- C7 amended: once the cart is obtained and the product found, `add_item`
fails with the InsufficientStock-kind `ConflictError` exactly when the
newly REQUESTED quantity alone exceeds the product's current stock; any
quantity already in the cart for that product is not consulted. -/
theorem c7_add_item_checks_requested_only (db : DB) (u : Nat) (d : CartItemCreate)
    (db1 : DB) (cart : Cart) (p : Product)
    (h1 : get_or_create_cart db u = (db1, .ok cart))
    (h2 : db1.products.find? (fun q => q.id == d.product_id) = some p) :
    ((add_item db u d).2 =
      .error (.conflict "Requested quantity exceeds available stock")
      ↔ d.quantity > p.stock) := by
  unfold add_item
  rw [h1]
  dsimp only
  rw [h2]
  dsimp only
  by_cases hq : d.quantity > p.stock
  · rw [if_pos hq]
    simp [hq]
  · rw [if_neg hq]
    cases hi : db1.cart_items.find?
        (fun i => i.cart_id == cart.id && i.product_id == d.product_id)
    · dsimp only
      simp [hq]
    · rename_i item
      dsimp only
      simp [hq]

/-- C7 amended witness: the amended theorem instantiated on `dbC7`
(requested 3 against stock 6 — no error, despite the cumulative 8). -/
theorem c7_add_item_checks_requested_only_witness :
    ((add_item dbC7 1 { product_id := 100, quantity := 3 }).2 =
      .error (.conflict "Requested quantity exceeds available stock")
      ↔ (3 : Int) > 6) :=
  c7_add_item_checks_requested_only dbC7 1 { product_id := 100, quantity := 3 }
    dbC7 { id := 1, user_id := 1, total_amount := 0 }
    { id := 100, price := 5, stock := 6 } rfl rfl

/-- C8: for every checkout, (i) when `billing_address_id` is omitted, a
committed order's billing address id equals its shipping address id (the
shipping address is reused), and (ii) when `billing_address_id` is given
but no address with that id belongs to the user, the checkout fails. -/
theorem c8_billing_defaults_to_shipping (db : DB) (u : Nat) (d : OrderCreate) :
    (∀ db' o, d.billing_address_id = none → create_order db u d = (db', .ok o) →
      o.billing_address_id = some o.shipping_address_id) ∧
    (∀ b, d.billing_address_id = some b →
      (∀ a ∈ db.addresses, ¬(a.id = b ∧ a.user_id = u)) →
      isOk (create_order db u d).2 = false) := by
  constructor
  · intro db' o hnone h
    obtain ⟨db1, cart, sa, ba, ps', ois, hg, hs, hb, hv, ho, hdb⟩ :=
      create_order_ok_spec db u d db' o h
    rw [hnone] at hb
    unfold resolve_billing at hb
    dsimp only at hb
    cases hb
    rw [ho]
  · intro b hsome hnotowned
    unfold create_order
    cases hg : get_cart db u with
    | mk db1 r =>
    cases r with
    | error e => rfl
    | ok cart =>
      dsimp only
      obtain ⟨_, _, _, _, _, _, had, _⟩ := get_cart_ok_spec db u db1 cart hg
      cases hs : get_user_address db1 u d.shipping_address_id with
      | error e => rfl
      | ok shipping =>
        dsimp only
        rw [hsome]
        unfold resolve_billing
        dsimp only
        have hua : isOk (get_user_address db1 u b) = false := by
          unfold get_user_address
          cases hu : get_user db1 u with
          | error e => rfl
          | ok usr =>
            dsimp only
            have husr : usr.id = u := by
              unfold get_user at hu
              cases hf : db1.users.find? (fun x => x.id == u) <;> rw [hf] at hu
              · cases hu
              · dsimp only at hu
                cases hu
                simpa using List.find?_some hf
            have hfind : db1.addresses.find?
                (fun a => a.id == b && a.user_id == usr.id) = none := by
              rw [List.find?_eq_none]
              intro a ha
              rw [had] at ha
              have hno := hnotowned a ha
              rw [husr]
              simp only [Bool.and_eq_true, beq_iff_eq, not_and]
              intro hid huid
              exact hno ⟨hid, huid⟩
            rw [hfind]
            rfl
        cases hua2 : get_user_address db1 u b with
        | error e => rfl
        | ok x =>
          rw [hua2] at hua
          simp [isOk] at hua

/-- C8 witness: part (i) on the concrete checkout over `dbC8` with billing
omitted (the committed `orderC8` reuses shipping address 7), part (ii) on
the same state with billing address 9, which belongs to nobody. -/
theorem c8_billing_defaults_to_shipping_witness :
    orderC8.billing_address_id = some orderC8.shipping_address_id ∧
    isOk (create_order dbC8 1
      { shipping_address_id := 7, billing_address_id := some 9 }).2 = false :=
  ⟨(c8_billing_defaults_to_shipping dbC8 1
      { shipping_address_id := 7, billing_address_id := none }).1
      _ orderC8 rfl (by rfl),
   (c8_billing_defaults_to_shipping dbC8 1
      { shipping_address_id := 7, billing_address_id := some 9 }).2
      9 rfl (by decide)⟩

/-- C9: with the cart obtained, the product found and the requested
quantity within stock: (i) if the cart holds exactly one line for the
product, `add_item` leaves exactly one line for it afterwards, its
quantity incremented by the added quantity, its `unit_price` the ORIGINAL
snapshot, and its subtotal that original unit price times the new
quantity; (ii) only when no line for the product exists is a new line
appended, snapshotting the product's CURRENT price as `unit_price`. -/
theorem c9_add_item_merges_lines (db : DB) (u : Nat) (d : CartItemCreate)
    (db1 : DB) (cart : Cart) (p : Product)
    (h1 : get_or_create_cart db u = (db1, .ok cart))
    (h2 : db1.products.find? (fun q => q.id == d.product_id) = some p)
    (h3 : ¬ d.quantity > p.stock)
    (hids : (db1.cart_items.map (fun i => i.id)).Nodup) :
    (∀ it, db1.cart_items.filter
        (fun i => i.cart_id == cart.id && i.product_id == d.product_id) = [it] →
      ∃ it',
        add_item db u d =
          ({ db1 with cart_items :=
              db1.cart_items.map (fun i => if i.id == it.id then it' else i) },
           .ok it') ∧
        it'.quantity = it.quantity + d.quantity ∧
        it'.unit_price = it.unit_price ∧
        it'.subtotal = it.unit_price * ((it.quantity + d.quantity : Int) : Rat) ∧
        (add_item db u d).1.cart_items.filter
          (fun i => i.cart_id == cart.id && i.product_id == d.product_id) = [it']) ∧
    (db1.cart_items.find?
        (fun i => i.cart_id == cart.id && i.product_id == d.product_id) = none →
      ∃ it',
        add_item db u d =
          ({ db1 with cart_items := db1.cart_items ++ [it'],
                      next_id := db1.next_id + 1 }, .ok it') ∧
        it'.unit_price = p.price ∧ it'.quantity = d.quantity ∧
        it'.subtotal = p.price * ((d.quantity : Int) : Rat)) := by
  constructor
  · intro it hfilter
    have hfind := find?_of_filter_single db1.cart_items
      (fun i => i.cart_id == cart.id && i.product_id == d.product_id) it hfilter
    have hmem : it ∈ db1.cart_items.filter
        (fun i => i.cart_id == cart.id && i.product_id == d.product_id) := by
      rw [hfilter]
      exact List.mem_singleton_self it
    have hpred := List.of_mem_filter hmem
    have hres : add_item db u d = ({ db1 with cart_items := db1.cart_items.map (fun i => if i.id == it.id then { it with quantity := it.quantity + d.quantity, subtotal := it.unit_price * ((it.quantity + d.quantity : Int) : Rat) } else i) }, .ok { it with quantity := it.quantity + d.quantity, subtotal := it.unit_price * ((it.quantity + d.quantity : Int) : Rat) }) := by
      unfold add_item
      rw [h1]
      dsimp only
      rw [h2]
      dsimp only
      rw [if_neg h3, hfind]
    refine ⟨_, hres, rfl, rfl, rfl, ?_⟩
    rw [hres]
    exact filter_map_replace db1.cart_items it _ _ hids hfilter hpred
  · intro hnone
    refine ⟨{ id := db1.next_id, cart_id := cart.id, product_id := d.product_id, quantity := d.quantity, unit_price := p.price, subtotal := p.price * ((d.quantity : Int) : Rat) }, ?_, rfl, rfl, rfl⟩
    unfold add_item
    rw [h1]
    dsimp only
    rw [h2]
    dsimp only
    rw [if_neg h3, hnone]

/-- C9 witness: the theorem's merge branch instantiated on `dbC9` (one
existing line, quantity 3 at snapshotted price 5; adding 2 yields a single
line of quantity 5, subtotal 5 * 5). -/
theorem c9_add_item_merges_lines_witness :
    ∃ it',
      add_item dbC9 1 { product_id := 100, quantity := 2 } =
        ({ dbC9 with cart_items :=
            dbC9.cart_items.map (fun i => if i.id == itC9.id then it' else i) },
         .ok it') ∧
      it'.quantity = itC9.quantity + 2 ∧
      it'.unit_price = itC9.unit_price ∧
      it'.subtotal = itC9.unit_price * ((itC9.quantity + 2 : Int) : Rat) ∧
      (add_item dbC9 1 { product_id := 100, quantity := 2 }).1.cart_items.filter
        (fun i => i.cart_id == (1 : Nat) && i.product_id == (100 : Nat)) = [it'] :=
  (c9_add_item_merges_lines dbC9 1 { product_id := 100, quantity := 2 } dbC9
    { id := 1, user_id := 1, total_amount := 0 } { id := 100, price := 5, stock := 10 }
    rfl rfl (by decide) (by decide)).1 itC9 (by decide)

/-- C10 counterexample: in `dbC10` user 1's cart has no line items at all,
and item 99 does not exist; yet `remove_item` SUCCEEDS — the
`if not cart.items: return` shortcut returns before any lookup — instead
of failing with the NotFound-kind error the claim requires for a missing
item. -/
theorem c10_remove_item_empty_cart_silently_succeeds_cex :
    remove_item dbC10 1 99 = (dbC10, .ok ()) ∧ cartItemsOf dbC10 1 = [] := by
  exact ⟨rfl, rfl⟩

/-- C10 amended: with the user's cart obtained: when the cart has NO items
at all, `remove_item` returns successfully without touching anything (no
NotFound error); when the cart is non-empty, a missing item id fails with
`NotFoundError("Item with ID ... not found")` and an existing item (found
by id within the cart) is deleted. -/
theorem c10_remove_item_behavior (db : DB) (u item_id : Nat)
    (db1 : DB) (cart : Cart)
    (h1 : get_or_create_cart db u = (db1, .ok cart)) :
    (cartItemsOf db1 cart.id = [] → remove_item db u item_id = (db1, .ok ())) ∧
    (cartItemsOf db1 cart.id ≠ [] →
      db1.cart_items.find? (fun i => i.id == item_id && i.cart_id == cart.id) = none →
      remove_item db u item_id =
        (db1, .error (.notFound ("Item with ID " ++ toString item_id ++ " not found")))) ∧
    (∀ it, cartItemsOf db1 cart.id ≠ [] →
      db1.cart_items.find? (fun i => i.id == item_id && i.cart_id == cart.id) = some it →
      remove_item db u item_id =
        ({ db1 with cart_items := db1.cart_items.filter (fun i => !(i.id == it.id)) },
         .ok ())) := by
  refine ⟨fun hemp => ?_, fun hne hnone => ?_, fun it hne hsome => ?_⟩
  · unfold remove_item
    rw [h1]
    dsimp only
    rw [if_pos hemp]
  · unfold remove_item
    rw [h1]
    dsimp only
    rw [if_neg hne, hnone]
  · unfold remove_item
    rw [h1]
    dsimp only
    rw [if_neg hne, hsome]

/-- C10 amended witness: the non-empty branch on `dbC10b` — removing the
nonexistent item 99 from a cart that does have items yields the NotFound
error. -/
theorem c10_remove_item_behavior_witness :
    remove_item dbC10b 1 99 =
      (dbC10b, .error (.notFound
        ("Item with ID " ++ toString (99 : Nat) ++ " not found"))) :=
  (c10_remove_item_behavior dbC10b 1 99 dbC10b
    { id := 1, user_id := 1, total_amount := 0 } rfl).2.1 (by decide) rfl

end Ecom
